import Mathlib

/-!
Verification of the ASP-Cranes CRM quotation logic.

This file gives a shallow embedding of the quotation service
(`quotationService`: `calculateTotalRent` and the four read accessors)
and of the two Express submission handlers (`handleQuotationSubmission`,
`handleLeadSubmission`), and proves properties of them.

JavaScript numbers are modelled as rationals (`ℚ`); a possibly-absent
(`undefined`) value is modelled as an `Option`.  The JavaScript idiom
`Number(x || d)` (default on a falsy value, i.e. absent or zero) is
modelled by `jsOr`, and `a || 'd'` on strings (falsy = absent or empty)
by `jsOrStr`.
-/

namespace ASPCranes

/-- JS `Number(x || d)`: an absent or zero numeric field defaults to `d`. -/
def jsOr (x : Option ℚ) (d : ℚ) : ℚ :=
  match x with
  | none => d
  | some q => if q = 0 then d else q

/-- JS falsiness of a possibly-absent number: `!x` is true when `x` is
absent or zero. -/
def jsFalsy (x : Option ℚ) : Bool :=
  match x with
  | none => true
  | some q => decide (q = 0)

/-- JS `s || d` on a possibly-absent string: absent or empty defaults to `d`. -/
def jsOrStr (x : Option String) (d : String) : String :=
  match x with
  | none => d
  | some s => if s = "" then d else s

/-- `orderType`: one of the four base-rate tiers. -/
inductive OrderType where
  | micro | small | monthly | yearly
  deriving DecidableEq, Repr

/-- `shift`: `'single' | 'double'`. -/
inductive Shift where
  | single | double
  deriving DecidableEq, Repr

/-- `usage`: `'normal' | 'heavy'`. -/
inductive Usage where
  | normal | heavy
  deriving DecidableEq, Repr

/-- `riskFactor`: `'low' | 'medium' | 'high'`. -/
inductive RiskFactor where
  | low | medium | high
  deriving DecidableEq, Repr

/-- Per-tier base rates of a piece of equipment. -/
structure BaseRates where
  micro : ℚ
  small : ℚ
  monthly : ℚ
  yearly : ℚ
  deriving DecidableEq, Repr

/-- `baseRates[orderType]`: select the rate of a tier. -/
def BaseRates.tier (r : BaseRates) : OrderType → ℚ
  | OrderType.micro => r.micro
  | OrderType.small => r.small
  | OrderType.monthly => r.monthly
  | OrderType.yearly => r.yearly

/-- One entry of `selectedMachines`. -/
structure Machine where
  id : String
  name : String
  baseRate : ℚ
  quantity : ℚ
  runningCostPerKm : Option ℚ
  deriving DecidableEq, Repr

/-- The legacy `selectedEquipment` object; `baseRates` may be absent
(the code guards with `selectedEquipment?.baseRates`). -/
structure SelectedEquipment where
  id : String
  equipmentId : String
  name : String
  baseRates : Option BaseRates
  deriving DecidableEq, Repr

/-- The `QuotationInputs` record consumed by `calculateTotalRent`.
Optional numeric fields are `Option ℚ` (absent = `undefined`). -/
structure QuotationInputs where
  numberOfDays : Option ℚ
  workingHours : Option ℚ
  shift : Shift
  usage : Usage
  riskFactor : RiskFactor
  orderType : OrderType
  foodResources : Option ℚ
  accomResources : Option ℚ
  siteDistance : Option ℚ
  mobDemob : Option ℚ
  mobRelaxation : Option ℚ
  runningCostPerKm : Option ℚ
  extraCharge : Option ℚ
  includeGst : Bool
  selectedEquipment : Option SelectedEquipment
  selectedMachines : Option (List Machine)
  deriving DecidableEq, Repr

/-- `hasMachines = quotationData.selectedMachines && quotationData.selectedMachines.length > 0`. -/
def QuotationInputs.hasMachines (q : QuotationInputs) : Bool :=
  match q.selectedMachines with
  | none => false
  | some ms => decide (0 < ms.length)

/-- `days = Number(quotationData.numberOfDays)` (reached only when truthy). -/
def daysOf (q : QuotationInputs) : ℚ :=
  q.numberOfDays.getD 0

/-- `isMonthly = days > 25`. -/
def isMonthlyOf (q : QuotationInputs) : Bool :=
  decide (25 < daysOf q)

/-- `effectiveDays = isMonthly ? 26 : days`. -/
def effectiveDaysOf (q : QuotationInputs) : ℚ :=
  if isMonthlyOf q then 26 else daysOf q

/-- `workingHours = Number(quotationData.workingHours || 8)`. -/
def workingHoursOf (q : QuotationInputs) : ℚ :=
  jsOr q.workingHours 8

/-- `shiftMultiplier = quotationData.shift === 'double' ? 2 : 1`. -/
def shiftMultiplierOf (q : QuotationInputs) : ℚ :=
  if q.shift = Shift.double then 2 else 1

/-- Working cost (lines 67–96 of the service): per-machine sum when
machines are present, otherwise the legacy single-equipment path. -/
def workingCostOf (q : QuotationInputs) : ℚ :=
  if q.hasMachines then
    (q.selectedMachines.getD []).foldl
      (fun acc machine =>
        let machineCost :=
          if isMonthlyOf q then
            ((machine.baseRate / 26) / workingHoursOf q) * workingHoursOf q *
              effectiveDaysOf q * shiftMultiplierOf q * machine.quantity
          else
            machine.baseRate * workingHoursOf q * effectiveDaysOf q *
              shiftMultiplierOf q * machine.quantity
        acc + machineCost) 0
  else
    match q.selectedEquipment with
    | some equipment =>
      match equipment.baseRates with
      | some rates =>
        let machineBaseRate := rates.tier q.orderType
        if isMonthlyOf q then
          ((machineBaseRate / 26) / workingHoursOf q) * workingHoursOf q *
            effectiveDaysOf q * shiftMultiplierOf q
        else
          machineBaseRate * workingHoursOf q * effectiveDaysOf q * shiftMultiplierOf q
      | none => 0
    | none => 0

/-- `usagePercentage = quotationData.usage === 'heavy' ? 0.10 : 0.05`. -/
def usagePercentageOf (q : QuotationInputs) : ℚ :=
  if q.usage = Usage.heavy then 10 / 100 else 5 / 100

/-- Usage load factor (lines 98–111). -/
def usageLoadFactorOf (q : QuotationInputs) : ℚ :=
  if q.hasMachines then
    (q.selectedMachines.getD []).foldl
      (fun acc machine => acc + machine.baseRate * machine.quantity * usagePercentageOf q) 0
  else
    match q.selectedEquipment with
    | some equipment =>
      match equipment.baseRates with
      | some rates => rates.tier q.orderType * usagePercentageOf q
      | none => 0
    | none => 0

/-- Food and accommodation cost (lines 113–118): flat monthly amounts
when monthly, otherwise the monthly/26 daily rates times `effectiveDays`. -/
def foodAccomCostOf (q : QuotationInputs) : ℚ :=
  let foodDailyRate : ℚ := 2500 / 26
  let accomDailyRate : ℚ := 4000 / 26
  if isMonthlyOf q then
    jsOr q.foodResources 0 * 2500 + jsOr q.accomResources 0 * 4000
  else
    (jsOr q.foodResources 0 * foodDailyRate + jsOr q.accomResources 0 * accomDailyRate) *
      effectiveDaysOf q

/-- Mobilization/demobilization cost (lines 120–142). -/
def mobDemobCostOf (q : QuotationInputs) : ℚ :=
  let distance := jsOr q.siteDistance 0
  let trailerCost := jsOr q.mobDemob 0
  let mobRelaxationPercent := jsOr q.mobRelaxation 0
  if q.hasMachines then
    (q.selectedMachines.getD []).foldl
      (fun acc machine =>
        let runningCostPerKm := jsOr machine.runningCostPerKm 0
        let distToSiteCost := distance * runningCostPerKm * 2 * machine.quantity
        let mobRelaxationAmount := distToSiteCost * mobRelaxationPercent / 100
        acc + ((distToSiteCost - mobRelaxationAmount) + trailerCost * machine.quantity)) 0
  else
    let runningCostPerKm := jsOr q.runningCostPerKm 0
    let distanceCost := distance * runningCostPerKm * 2
    let relaxationAmount := distanceCost * mobRelaxationPercent / 100
    distanceCost + trailerCost - relaxationAmount

/-- `riskPercentage`: high 0.15, medium 0.10, otherwise 0.05. -/
def riskPercentageOf (q : QuotationInputs) : ℚ :=
  if q.riskFactor = RiskFactor.high then 15 / 100
  else if q.riskFactor = RiskFactor.medium then 10 / 100
  else 5 / 100

/-- Risk adjustment (lines 144–158). -/
def riskAdjustmentOf (q : QuotationInputs) : ℚ :=
  if q.hasMachines then
    (q.selectedMachines.getD []).foldl
      (fun acc machine => acc + machine.baseRate * machine.quantity * riskPercentageOf q) 0
  else
    match q.selectedEquipment with
    | some equipment =>
      match equipment.baseRates with
      | some rates => rates.tier q.orderType * riskPercentageOf q
      | none => 0
    | none => 0

/-- `extraCharges = Number(quotationData.extraCharge || 0)`. -/
def extraChargesOf (q : QuotationInputs) : ℚ :=
  jsOr q.extraCharge 0

/-- Subtotal (lines 163–171). -/
def subtotalOf (q : QuotationInputs) : ℚ :=
  workingCostOf q + foodAccomCostOf q + mobDemobCostOf q + riskAdjustmentOf q +
    usageLoadFactorOf q + extraChargesOf q

/-- The `try` block of `calculateTotalRent`: early return 0 on a falsy
`numberOfDays`, else subtotal plus GST.  Modelled in `Except` so that the
surrounding `catch` is explicit in `calculateTotalRent`. -/
def calcTotalRentBody (q : QuotationInputs) : Except String ℚ :=
  if jsFalsy q.numberOfDays then
    Except.ok 0
  else
    let subtotal := subtotalOf q
    let gstAmount := if q.includeGst then subtotal * (18 / 100) else 0
    let totalAmount := subtotal + gstAmount
    Except.ok totalAmount

/-- `calculateTotalRent`: the `try` body with any raised error swallowed
and replaced by 0 (lines 178–181). -/
def calculateTotalRent (q : QuotationInputs) : ℚ :=
  match calcTotalRentBody q with
  | Except.ok v => v
  | Except.error _ => 0

/-! ## Stored quotation documents and the four read accessors

A Firestore quotation document, with every field possibly absent, and
the per-document mapping applied by each of the four read accessors
(`getQuotations`, `getQuotationById`, `getQuotationsForLead`,
`getQuotationsForCustomer`).  Query filtering, ordering and the async
plumbing belong to Firestore and are out of scope; the accessors are
modelled by what they do to a single fetched document.  The accessors
that consult the current clock (`new Date().toISOString()`) take it as
the explicit argument `now`. -/

/-- The stored `customerContact` object (every field may be absent). -/
structure StoredContact where
  name : Option String
  email : Option String
  phone : Option String
  company : Option String
  address : Option String
  designation : Option String
  deriving DecidableEq, Repr

/-- The stored legacy `selectedEquipment` object. -/
structure StoredEquipment where
  id : Option String
  equipmentId : Option String
  name : Option String
  baseRates : Option BaseRates
  deriving DecidableEq, Repr

/-- A stored quotation document: every field may be absent (schema drift
across versions). -/
structure StoredQuotation where
  customerContact : Option StoredContact
  customerName : Option String
  selectedEquipment : Option StoredEquipment
  selectedMachines : Option (List Machine)
  machineType : Option String
  orderType : Option OrderType
  numberOfDays : Option ℚ
  workingHours : Option ℚ
  foodResources : Option ℚ
  accomResources : Option ℚ
  siteDistance : Option ℚ
  usage : Option Usage
  riskFactor : Option RiskFactor
  extraCharge : Option ℚ
  includeGst : Option Bool
  shift : Option Shift
  mobDemob : Option ℚ
  mobRelaxation : Option ℚ
  runningCostPerKm : Option ℚ
  version : Option ℚ
  createdAt : Option String
  updatedAt : Option String
  createdBy : Option String
  status : Option String
  totalRent : Option ℚ
  leadId : Option String
  customerId : Option String
  deriving DecidableEq, Repr

/-- What a read accessor hands back for one document: the document id
plus the (possibly defaulted) stored fields.  A `none` field is an
`undefined` surfaced to the caller. -/
structure QuotationView where
  id : String
  customerContact : Option StoredContact
  customerName : Option String
  selectedEquipment : Option StoredEquipment
  selectedMachines : Option (List Machine)
  machineType : Option String
  orderType : Option OrderType
  numberOfDays : Option ℚ
  workingHours : Option ℚ
  foodResources : Option ℚ
  accomResources : Option ℚ
  siteDistance : Option ℚ
  usage : Option Usage
  riskFactor : Option RiskFactor
  extraCharge : Option ℚ
  includeGst : Option Bool
  shift : Option Shift
  mobDemob : Option ℚ
  mobRelaxation : Option ℚ
  runningCostPerKm : Option ℚ
  version : Option ℚ
  createdAt : Option String
  updatedAt : Option String
  createdBy : Option String
  status : Option String
  totalRent : Option ℚ
  leadId : Option String
  customerId : Option String
  deriving DecidableEq, Repr

/-- `{ id: doc.id, ...doc.data() }`: the raw spread with no defaulting,
as performed by `getQuotationsForLead` and `getQuotationsForCustomer`. -/
def rawView (docId : String) (data : StoredQuotation) : QuotationView :=
  { id := docId
    customerContact := data.customerContact
    customerName := data.customerName
    selectedEquipment := data.selectedEquipment
    selectedMachines := data.selectedMachines
    machineType := data.machineType
    orderType := data.orderType
    numberOfDays := data.numberOfDays
    workingHours := data.workingHours
    foodResources := data.foodResources
    accomResources := data.accomResources
    siteDistance := data.siteDistance
    usage := data.usage
    riskFactor := data.riskFactor
    extraCharge := data.extraCharge
    includeGst := data.includeGst
    shift := data.shift
    mobDemob := data.mobDemob
    mobRelaxation := data.mobRelaxation
    runningCostPerKm := data.runningCostPerKm
    version := data.version
    createdAt := data.createdAt
    updatedAt := data.updatedAt
    createdBy := data.createdBy
    status := data.status
    totalRent := data.totalRent
    leadId := data.leadId
    customerId := data.customerId }

/-- The defaulted `customerContact` built by `getQuotations` and
`getQuotationById`. -/
def defaultedContact (data : StoredQuotation) : StoredContact :=
  { name := some (jsOrStr (data.customerContact.bind fun c => c.name)
      (jsOrStr data.customerName "Unknown"))
    email := some (jsOrStr (data.customerContact.bind fun c => c.email) "")
    phone := some (jsOrStr (data.customerContact.bind fun c => c.phone) "")
    company := some (jsOrStr (data.customerContact.bind fun c => c.company) "")
    address := some (jsOrStr (data.customerContact.bind fun c => c.address) "")
    designation := some (jsOrStr (data.customerContact.bind fun c => c.designation) "") }

/-- The all-zero `baseRates` fallback object. -/
def zeroBaseRates : BaseRates :=
  { micro := 0, small := 0, monthly := 0, yearly := 0 }

/-- Per-document mapping of `getQuotations` (lines 12–42 of the service):
defaults `customerContact`, `selectedEquipment`, `selectedMachines`,
`createdAt`, `updatedAt`, `status`, `totalRent` and `version`; every
other field is passed through by the spread. -/
def mapGetQuotations (now docId : String) (data : StoredQuotation) : QuotationView :=
  { rawView docId data with
    customerContact := some (defaultedContact data)
    selectedEquipment := some
      { id := some (jsOrStr (data.selectedEquipment.bind fun e => e.id) "")
        equipmentId := some (jsOrStr (data.selectedEquipment.bind fun e => e.equipmentId) "")
        name := some
          (if (match data.selectedMachines with
               | some ms => decide (0 < ms.length)
               | none => false) then
            toString (data.selectedMachines.getD []).length ++ " machines selected"
          else
            jsOrStr (data.selectedEquipment.bind fun e => e.name) "Unknown Equipment")
        baseRates := some ((data.selectedEquipment.bind fun e => e.baseRates).getD zeroBaseRates) }
    selectedMachines := some (data.selectedMachines.getD [])
    createdAt := some (jsOrStr data.createdAt now)
    updatedAt := some (jsOrStr data.updatedAt now)
    status := some (jsOrStr data.status "draft")
    totalRent := some (jsOr data.totalRent 0)
    version := some (jsOr data.version 1) }

/-- Per-document mapping of `getQuotationsForLead` (lines 217–226): the
raw spread, with no defaulting at all. -/
def mapGetQuotationsForLead (docId : String) (data : StoredQuotation) : QuotationView :=
  rawView docId data

/-- Per-document mapping of `getQuotationsForCustomer` (lines 229–238):
the raw spread, with no defaulting at all. -/
def mapGetQuotationsForCustomer (docId : String) (data : StoredQuotation) : QuotationView :=
  rawView docId data

/-- The display name computed by `getQuotationById` (lines 253–259):
`"<n> machines selected"` for more than one machine, the single
machine's own name for exactly one, else the legacy equipment name or
`"Unknown Equipment"`. -/
def equipmentNameById (data : StoredQuotation) : String :=
  let selectedMachines := data.selectedMachines.getD []
  if 1 < selectedMachines.length then
    toString selectedMachines.length ++ " machines selected"
  else if selectedMachines.length = 1 then
    match selectedMachines.head? with
    | some m => m.name
    | none => jsOrStr (data.selectedEquipment.bind fun e => e.name) "Unknown Equipment"
  else
    jsOrStr (data.selectedEquipment.bind fun e => e.name) "Unknown Equipment"

/-- Per-document mapping of `getQuotationById` (lines 248–316): every
field is defaulted. -/
def mapGetQuotationById (now docId : String) (data : StoredQuotation) : QuotationView :=
  { id := docId
    customerContact := some (defaultedContact data)
    customerName := some (jsOrStr data.customerName "Unknown")
    selectedEquipment := some
      { id := some (jsOrStr (data.selectedEquipment.bind fun e => e.id) "")
        equipmentId := some (jsOrStr (data.selectedEquipment.bind fun e => e.equipmentId) "")
        name := some (equipmentNameById data)
        baseRates := some ((data.selectedEquipment.bind fun e => e.baseRates).getD zeroBaseRates) }
    selectedMachines := some (data.selectedMachines.getD [])
    machineType := some (jsOrStr data.machineType "")
    orderType := some (data.orderType.getD OrderType.micro)
    numberOfDays := some (jsOr data.numberOfDays 0)
    workingHours := some (jsOr data.workingHours 8)
    foodResources := some (jsOr data.foodResources 0)
    accomResources := some (jsOr data.accomResources 0)
    siteDistance := some (jsOr data.siteDistance 0)
    usage := some (data.usage.getD Usage.normal)
    riskFactor := some (data.riskFactor.getD RiskFactor.low)
    extraCharge := some (jsOr data.extraCharge 0)
    includeGst := some (data.includeGst.getD true)
    shift := some (data.shift.getD Shift.single)
    mobDemob := some (jsOr data.mobDemob 0)
    mobRelaxation := some (jsOr data.mobRelaxation 0)
    runningCostPerKm := some (jsOr data.runningCostPerKm 0)
    version := some (jsOr data.version 1)
    createdAt := some (jsOrStr data.createdAt now)
    updatedAt := some (jsOrStr data.updatedAt now)
    createdBy := some (jsOrStr data.createdBy "system")
    status := some (jsOrStr data.status "draft")
    totalRent := some (jsOr data.totalRent 0)
    leadId := some (jsOrStr data.leadId "")
    customerId := some (jsOrStr data.customerId "") }

/-- The equipment display name a view surfaces, when any. -/
def QuotationView.equipmentName (v : QuotationView) : Option String :=
  v.selectedEquipment.bind fun e => e.name

/-! ## The Express submission handlers

`handleLeadSubmission` and `handleQuotationSubmission` validate a fixed
list of required fields with JS truthiness (`!body[field]`), returning a
400 naming the first failing field, otherwise default the optional
fields and write the record.  A request-body field value is a JS value
(string, number, or a date object); `new Date()` is the explicit
argument `now`. -/

/-- A JS value appearing in a request body. -/
inductive JsVal where
  | str : String → JsVal
  | num : ℚ → JsVal
  | date : String → JsVal
  deriving DecidableEq, Repr

/-- JS truthiness of a value: the empty string and 0 are falsy. -/
def JsVal.truthy : JsVal → Bool
  | JsVal.str s => !(s = "")
  | JsVal.num q => decide (q ≠ 0)
  | JsVal.date _ => true

/-- JS truthiness of a possibly-absent field. -/
def fieldTruthy (x : Option JsVal) : Bool :=
  match x with
  | none => false
  | some v => v.truthy

/-- The body of a quotation submission request. -/
structure QuotationSubmission where
  leadId : Option JsVal
  equipmentDetails : Option JsVal
  totalPrice : Option JsVal
  createdAt : Option JsVal
  status : Option JsVal
  deriving DecidableEq, Repr

/-- `requiredFields = ['leadId', 'equipmentDetails', 'totalPrice']`. -/
def quotationRequiredFields : List String :=
  ["leadId", "equipmentDetails", "totalPrice"]

/-- `quotationData[field]` for the quotation handler's field names. -/
def QuotationSubmission.field (b : QuotationSubmission) (f : String) : Option JsVal :=
  if f = "leadId" then b.leadId
  else if f = "equipmentDetails" then b.equipmentDetails
  else if f = "totalPrice" then b.totalPrice
  else if f = "createdAt" then b.createdAt
  else if f = "status" then b.status
  else none

/-- The outcome of a submission handler: a client error with nothing
written, or the record as written to the store. -/
inductive SubmissionResult (α : Type) where
  | clientError : Nat → String → SubmissionResult α
  | created : α → SubmissionResult α
  deriving DecidableEq, Repr

/-- `handleQuotationSubmission` (api/quotations.ts): 400 naming the
first required field that is falsy, else default `createdAt` and
`status` and write. -/
def handleQuotationSubmission (now : JsVal) (b : QuotationSubmission) :
    SubmissionResult QuotationSubmission :=
  match quotationRequiredFields.find? (fun f => !(fieldTruthy (b.field f))) with
  | some f => SubmissionResult.clientError 400 ("Missing required field: " ++ f)
  | none =>
    let b1 := if fieldTruthy b.createdAt then b else { b with createdAt := some now }
    let b2 := if fieldTruthy b1.status then b1 else { b1 with status := some (JsVal.str "draft") }
    SubmissionResult.created b2

/-- The body of a lead submission request. -/
structure LeadSubmission where
  customerName : Option JsVal
  equipmentNeeded : Option JsVal
  contactInfo : Option JsVal
  timestamp : Option JsVal
  status : Option JsVal
  source : Option JsVal
  deriving DecidableEq, Repr

/-- `requiredFields = ['customerName', 'equipmentNeeded', 'contactInfo']`. -/
def leadRequiredFields : List String :=
  ["customerName", "equipmentNeeded", "contactInfo"]

/-- `leadData[field]` for the lead handler's field names. -/
def LeadSubmission.field (b : LeadSubmission) (f : String) : Option JsVal :=
  if f = "customerName" then b.customerName
  else if f = "equipmentNeeded" then b.equipmentNeeded
  else if f = "contactInfo" then b.contactInfo
  else if f = "timestamp" then b.timestamp
  else if f = "status" then b.status
  else if f = "source" then b.source
  else none

/-- `handleLeadSubmission` (store/assistantStore.ts sibling file): 400
naming the first required field that is falsy, else default `timestamp`,
`status` and `source` and write. -/
def handleLeadSubmission (now : JsVal) (b : LeadSubmission) :
    SubmissionResult LeadSubmission :=
  match leadRequiredFields.find? (fun f => !(fieldTruthy (b.field f))) with
  | some f => SubmissionResult.clientError 400 ("Missing required field: " ++ f)
  | none =>
    let b1 := if fieldTruthy b.timestamp then b else { b with timestamp := some now }
    let b2 := if fieldTruthy b1.status then b1 else { b1 with status := some (JsVal.str "new") }
    let b3 := if fieldTruthy b2.source then b2
      else { b2 with source := some (JsVal.str "AI Assistant") }
    SubmissionResult.created b3

/-! ## Concrete inputs used to instantiate the theorems -/

/-- A pricing input with every optional field absent. -/
def baseInputs : QuotationInputs :=
  { numberOfDays := none, workingHours := none, shift := Shift.single, usage := Usage.normal,
    riskFactor := RiskFactor.low, orderType := OrderType.micro, foodResources := none,
    accomResources := none, siteDistance := none, mobDemob := none, mobRelaxation := none,
    runningCostPerKm := none, extraCharge := none, includeGst := false,
    selectedEquipment := none, selectedMachines := none }

/-- A sample machine entry. -/
def craneA : Machine :=
  { id := "m1", name := "Crane A", baseRate := 1000, quantity := 1, runningCostPerKm := some 10 }

/-- A second sample machine entry. -/
def craneB : Machine :=
  { id := "m2", name := "Crane B", baseRate := 2000, quantity := 2, runningCostPerKm := some 15 }

/-- A sample legacy equipment selection. -/
def legacyCrane : SelectedEquipment :=
  { id := "e1", equipmentId := "eq1", name := "Legacy Crane",
    baseRates := some { micro := 500, small := 900, monthly := 26000, yearly := 300000 } }

/-- A pricing input with `numberOfDays = 0` and every other field populated. -/
def qZeroDays : QuotationInputs :=
  { numberOfDays := some 0, workingHours := some 10, shift := Shift.double, usage := Usage.heavy,
    riskFactor := RiskFactor.high, orderType := OrderType.monthly, foodResources := some 3,
    accomResources := some 2, siteDistance := some 100, mobDemob := some 5000,
    mobRelaxation := some 10, runningCostPerKm := some 20, extraCharge := some 777,
    includeGst := true, selectedEquipment := some legacyCrane,
    selectedMachines := some [craneA, craneB] }

/-- A pricing input with ten days, GST on and a legacy equipment. -/
def qGst : QuotationInputs :=
  { baseInputs with
    numberOfDays := some 10
    includeGst := true
    extraCharge := some 100
    selectedEquipment := some legacyCrane }

/-- A monthly-billing pricing input (26 days, one machine). -/
def qMonthly : QuotationInputs :=
  { baseInputs with
    numberOfDays := some 26
    foodResources := some 1
    selectedMachines := some [craneA] }

/-- A pricing input with two machines selected. -/
def qFleet : QuotationInputs :=
  { baseInputs with
    numberOfDays := some 10
    siteDistance := some 50
    mobDemob := some 300
    selectedMachines := some [craneA, craneB] }

/-- The single-equipment mobilization example of the spec:
`distance=100`, `runningCostPerKm=10`, `mobRelaxation=50`, `mobDemob=0`. -/
def qMobSingle : QuotationInputs :=
  { baseInputs with
    numberOfDays := some 10
    siteDistance := some 100
    mobRelaxation := some 50
    runningCostPerKm := some 10
    mobDemob := some 0 }

/-- A stored quotation document with every field absent. -/
def emptyStoredQuotation : StoredQuotation :=
  { customerContact := none, customerName := none, selectedEquipment := none,
    selectedMachines := none, machineType := none, orderType := none, numberOfDays := none,
    workingHours := none, foodResources := none, accomResources := none, siteDistance := none,
    usage := none, riskFactor := none, extraCharge := none, includeGst := none, shift := none,
    mobDemob := none, mobRelaxation := none, runningCostPerKm := none, version := none,
    createdAt := none, updatedAt := none, createdBy := none, status := none, totalRent := none,
    leadId := none, customerId := none }

/-- A stored document holding exactly one selected machine. -/
def oneMachineDoc : StoredQuotation :=
  { emptyStoredQuotation with selectedMachines := some [craneA] }

/-- A stored document holding two selected machines. -/
def twoMachineDoc : StoredQuotation :=
  { emptyStoredQuotation with selectedMachines := some [craneA, craneB] }

/-- A quotation submission whose required fields are all present but whose
`totalPrice` is the falsy number 0. -/
def qSubZeroPrice : QuotationSubmission :=
  { leadId := some (JsVal.str "L1"), equipmentDetails := some (JsVal.str "crane"),
    totalPrice := some (JsVal.num 0), createdAt := none, status := none }

/-- A quotation submission whose required fields are all present and truthy. -/
def qSubOk : QuotationSubmission :=
  { leadId := some (JsVal.str "L1"), equipmentDetails := some (JsVal.str "50t crane"),
    totalPrice := some (JsVal.num 120000), createdAt := none, status := none }

/-- A lead submission whose required fields are all present and truthy. -/
def lSubOk : LeadSubmission :=
  { customerName := some (JsVal.str "Acme Corp"), equipmentNeeded := some (JsVal.str "crane"),
    contactInfo := some (JsVal.str "acme@example.com"), timestamp := none, status := none,
    source := none }

/-! ## Theorems -/

/-- C8: for every pricing input whose `numberOfDays` is 0 or absent,
`calculateTotalRent` returns exactly 0, regardless of all other fields. -/
theorem zero_days_returns_zero (q : QuotationInputs)
    (h : q.numberOfDays = none ∨ q.numberOfDays = some 0) :
    calculateTotalRent q = 0 := by
  have hf : jsFalsy q.numberOfDays = true := by
    rcases h with h | h <;> simp [jsFalsy, h]
  simp [calculateTotalRent, calcTotalRentBody, hf]

/-- Witness for C8 at a fully populated input with `numberOfDays = 0`. -/
theorem zero_days_returns_zero_witness :
    qZeroDays.numberOfDays = some 0 ∧ qZeroDays.includeGst = true ∧
      calculateTotalRent qZeroDays = 0 :=
  ⟨rfl, rfl, zero_days_returns_zero qZeroDays (Or.inr rfl)⟩

/-- C7: `calculateTotalRent` is the `try` body with its `catch` made
explicit: whenever the body yields a value the function returns that
value, and whenever the body raises, the error is swallowed and the
function returns 0, with no partial result.  The function is a total
pure Lean function, so it never throws and has no side effects. -/
theorem total_rent_exception_safety (q : QuotationInputs) :
    (∀ v, calcTotalRentBody q = Except.ok v → calculateTotalRent q = v)
    ∧ (∀ e, calcTotalRentBody q = Except.error e → calculateTotalRent q = 0) := by
  constructor
  · intro v hv
    simp [calculateTotalRent, hv]
  · intro e he
    simp [calculateTotalRent, he]

/-- Witness for C7 at the all-absent input. -/
theorem total_rent_exception_safety_witness :
    calcTotalRentBody baseInputs = Except.ok 0 ∧ calculateTotalRent baseInputs = 0 :=
  ⟨rfl, (total_rent_exception_safety baseInputs).1 0 rfl⟩

/-- C4: for a non-falsy `numberOfDays`, the returned total equals the
subtotal (working + food/accommodation + mob-demob + risk + usage load +
extra charge) times 1.18 when `includeGst` is set, and exactly the
subtotal when it is not. -/
theorem gst_toggle (q : QuotationInputs) (h : jsFalsy q.numberOfDays = false) :
    (q.includeGst = true → calculateTotalRent q = subtotalOf q * (118 / 100))
    ∧ (q.includeGst = false → calculateTotalRent q = subtotalOf q) := by
  refine ⟨fun hg => ?_, fun hg => ?_⟩
  · simp [calculateTotalRent, calcTotalRentBody, h, hg]
    ring
  · simp [calculateTotalRent, calcTotalRentBody, h, hg]

/-- Witness for C4 at a concrete GST-enabled input. -/
theorem gst_toggle_witness :
    jsFalsy qGst.numberOfDays = false ∧ qGst.includeGst = true ∧
      calculateTotalRent qGst = subtotalOf qGst * (118 / 100) :=
  ⟨rfl, rfl, (gst_toggle qGst rfl).1 rfl⟩

/-- C1: when `selectedMachines` is non-empty, every cost component and
the total are computed from the machines list only: two inputs that
differ only in `selectedEquipment` (including its `baseRates`) yield the
same working cost, usage load, mob-demob cost, risk adjustment and
total. -/
theorem machines_precedence (q : QuotationInputs) (e1 e2 : Option SelectedEquipment)
    (h : q.hasMachines = true) :
    workingCostOf { q with selectedEquipment := e1 } =
        workingCostOf { q with selectedEquipment := e2 }
    ∧ usageLoadFactorOf { q with selectedEquipment := e1 } =
        usageLoadFactorOf { q with selectedEquipment := e2 }
    ∧ mobDemobCostOf { q with selectedEquipment := e1 } =
        mobDemobCostOf { q with selectedEquipment := e2 }
    ∧ riskAdjustmentOf { q with selectedEquipment := e1 } =
        riskAdjustmentOf { q with selectedEquipment := e2 }
    ∧ calculateTotalRent { q with selectedEquipment := e1 } =
        calculateTotalRent { q with selectedEquipment := e2 } := by
  have h1 : ({ q with selectedEquipment := e1 } : QuotationInputs).hasMachines = true := h
  have h2 : ({ q with selectedEquipment := e2 } : QuotationInputs).hasMachines = true := h
  refine ⟨?_, ?_, ?_, ?_, ?_⟩ <;>
    simp [workingCostOf, usageLoadFactorOf, mobDemobCostOf, riskAdjustmentOf,
      calculateTotalRent, calcTotalRentBody, subtotalOf, foodAccomCostOf, extraChargesOf,
      h1, h2, workingHoursOf, effectiveDaysOf, isMonthlyOf, daysOf, shiftMultiplierOf,
      usagePercentageOf, riskPercentageOf, jsFalsy]

/-- Witness for C1: a two-machine input gives the same total whether the
legacy equipment is populated or absent. -/
theorem machines_precedence_witness :
    qFleet.hasMachines = true
    ∧ calculateTotalRent { qFleet with selectedEquipment := some legacyCrane } =
        calculateTotalRent { qFleet with selectedEquipment := none } :=
  ⟨rfl, (machines_precedence qFleet (some legacyCrane) none rfl).2.2.2.2⟩

/-- C10: a falsy `workingHours` (absent or 0) is coerced to 8 before
computing, so a present `workingHours` of 0 yields the same total as 8,
and the working-hours value used by the monthly division is never 0. -/
theorem working_hours_defaulting (q : QuotationInputs) :
    workingHoursOf { q with workingHours := some 0 } = 8
    ∧ workingHoursOf { q with workingHours := none } = 8
    ∧ workingHoursOf q ≠ 0
    ∧ calculateTotalRent { q with workingHours := some 0 } =
        calculateTotalRent { q with workingHours := some 8 } := by
  have w0 : workingHoursOf { q with workingHours := some 0 } = 8 := by
    simp [workingHoursOf, jsOr]
  have w8 : workingHoursOf { q with workingHours := some 8 } = 8 := by
    norm_num [workingHoursOf, jsOr]
  refine ⟨w0, by simp [workingHoursOf, jsOr], ?_, ?_⟩
  · cases hq : q.workingHours with
    | none => norm_num [workingHoursOf, jsOr, hq]
    | some v =>
      by_cases hv : v = 0
      · norm_num [workingHoursOf, jsOr, hq, hv]
      · simp [workingHoursOf, jsOr, hq, hv]
  · simp [calculateTotalRent, calcTotalRentBody, subtotalOf, workingCostOf, foodAccomCostOf,
      mobDemobCostOf, riskAdjustmentOf, usageLoadFactorOf, extraChargesOf, isMonthlyOf,
      daysOf, effectiveDaysOf, shiftMultiplierOf, usagePercentageOf, riskPercentageOf,
      QuotationInputs.hasMachines, jsFalsy, w0, w8]

/-- C2: billing is classified as monthly exactly when the number of days
exceeds 25; whenever it is monthly the effective days value used by the
cost terms is exactly 26, and the total is independent of the actual
`numberOfDays` across the monthly range. -/
theorem monthly_billing_classification :
    (∀ q : QuotationInputs, isMonthlyOf q = true ↔ 25 < daysOf q)
    ∧ (∀ q : QuotationInputs, isMonthlyOf q = true → effectiveDaysOf q = 26)
    ∧ (∀ (q : QuotationInputs) (d1 d2 : ℚ), 25 < d1 → 25 < d2 →
        calculateTotalRent { q with numberOfDays := some d1 } =
          calculateTotalRent { q with numberOfDays := some d2 }) := by
  refine ⟨fun q => by simp [isMonthlyOf], fun q h => by simp [effectiveDaysOf, h], ?_⟩
  intro q d1 d2 h1 h2
  have n1 : d1 ≠ 0 := ne_of_gt (lt_trans (by norm_num) h1)
  have n2 : d2 ≠ 0 := ne_of_gt (lt_trans (by norm_num) h2)
  have m1 : isMonthlyOf { q with numberOfDays := some d1 } = true := by
    simp [isMonthlyOf, daysOf, h1]
  have m2 : isMonthlyOf { q with numberOfDays := some d2 } = true := by
    simp [isMonthlyOf, daysOf, h2]
  have f1 : jsFalsy (some d1) = false := by simp [jsFalsy, n1]
  have f2 : jsFalsy (some d2) = false := by simp [jsFalsy, n2]
  simp [calculateTotalRent, calcTotalRentBody, subtotalOf, workingCostOf, foodAccomCostOf,
    mobDemobCostOf, riskAdjustmentOf, usageLoadFactorOf, extraChargesOf, effectiveDaysOf,
    workingHoursOf, shiftMultiplierOf, usagePercentageOf, riskPercentageOf,
    QuotationInputs.hasMachines, m1, m2, f1, f2]

/-- Witness for C2: 26 days is monthly with effective days 26, 25 days
is not monthly, and a monthly total does not change with the day count. -/
theorem monthly_billing_classification_witness :
    isMonthlyOf qMonthly = true
    ∧ effectiveDaysOf qMonthly = 26
    ∧ isMonthlyOf { qMonthly with numberOfDays := some 25 } = false
    ∧ calculateTotalRent { qMonthly with numberOfDays := some 30 } =
        calculateTotalRent { qMonthly with numberOfDays := some 100 } := by
  refine ⟨?_, ?_, ?_, ?_⟩
  · norm_num [isMonthlyOf, daysOf, qMonthly, baseInputs]
  · exact monthly_billing_classification.2.1 qMonthly
      (by norm_num [isMonthlyOf, daysOf, qMonthly, baseInputs])
  · norm_num [isMonthlyOf, daysOf, qMonthly, baseInputs]
  · exact monthly_billing_classification.2.2 qMonthly 30 100 (by norm_num) (by norm_num)

/-- C3: the mob-demob component is the round-trip distance cost
`distance * runningCostPerKm * 2` reduced by `mobRelaxation` percent
plus the flat trailer fee, with the relaxation never touching the
trailer fee; in per-machine mode both parts are scaled by each machine's
quantity before summing. -/
theorem mob_demob_components (q : QuotationInputs) :
    (q.hasMachines = false →
      mobDemobCostOf q =
        jsOr q.siteDistance 0 * jsOr q.runningCostPerKm 0 * 2 *
            (1 - jsOr q.mobRelaxation 0 / 100) + jsOr q.mobDemob 0)
    ∧ (q.hasMachines = true →
      mobDemobCostOf q =
        ((q.selectedMachines.getD []).map (fun m =>
          jsOr q.siteDistance 0 * jsOr m.runningCostPerKm 0 * 2 * m.quantity *
              (1 - jsOr q.mobRelaxation 0 / 100) + jsOr q.mobDemob 0 * m.quantity)).sum) := by
  constructor
  · intro h
    simp [mobDemobCostOf, h]
    ring
  · intro h
    have key : ∀ (l : List Machine) (dist trailer pct a : ℚ),
        l.foldl (fun acc machine =>
          let runningCostPerKm := jsOr machine.runningCostPerKm 0
          let distToSiteCost := dist * runningCostPerKm * 2 * machine.quantity
          let mobRelaxationAmount := distToSiteCost * pct / 100
          acc + ((distToSiteCost - mobRelaxationAmount) + trailer * machine.quantity)) a
        = a + (l.map (fun m =>
            dist * jsOr m.runningCostPerKm 0 * 2 * m.quantity * (1 - pct / 100)
              + trailer * m.quantity)).sum := by
      intro l
      induction l with
      | nil => intro dist trailer pct a; simp
      | cons m t ih =>
        intro dist trailer pct a
        simp [ih]
        ring
    simp [mobDemobCostOf, h, key]

/-- Witness for C3: the spec's worked example (`distance=100`,
`runningCostPerKm=10`, `mobRelaxation=50`, `mobDemob=0`, single mode)
is exactly 1000. -/
theorem mob_demob_components_witness :
    qMobSingle.hasMachines = false ∧ mobDemobCostOf qMobSingle = 1000 := by
  refine ⟨rfl, ?_⟩
  rw [(mob_demob_components qMobSingle).1 rfl]
  norm_num [jsOr, qMobSingle, baseInputs]

/-- C5 counterexample: for a stored document with `status` absent, the
get-by-lead accessor surfaces the field as `undefined` while the
get-by-id accessor defaults it to `"draft"` — the defaulting is not
applied identically on all four read paths. -/
theorem read_paths_defaulting_cex :
    (mapGetQuotationsForLead "q1" emptyStoredQuotation).status = none
    ∧ (mapGetQuotationById "t0" "q1" emptyStoredQuotation).status = some "draft" :=
  ⟨rfl, rfl⟩

/-- C5 (amended): record-defaulting is applied only by `getQuotations`
and `getQuotationById`, and differently (`getQuotationById` defaults
`workingHours` to 8 while `getQuotations` passes it through raw);
`getQuotationsForLead` and `getQuotationsForCustomer` return the stored
document unchanged, so absent optional fields surface as `undefined`
there. -/
theorem read_paths_defaulting (now docId : String) (data : StoredQuotation) :
    (mapGetQuotationsForLead docId data).status = data.status
    ∧ (mapGetQuotationsForCustomer docId data).status = data.status
    ∧ (mapGetQuotationsForLead docId data).workingHours = data.workingHours
    ∧ (mapGetQuotationsForCustomer docId data).totalRent = data.totalRent
    ∧ (data.status = none →
        (mapGetQuotations now docId data).status = some "draft"
        ∧ (mapGetQuotationById now docId data).status = some "draft")
    ∧ (data.workingHours = none →
        (mapGetQuotations now docId data).workingHours = none
        ∧ (mapGetQuotationById now docId data).workingHours = some 8)
    ∧ (data.totalRent = none →
        (mapGetQuotations now docId data).totalRent = some 0
        ∧ (mapGetQuotationById now docId data).totalRent = some 0) := by
  refine ⟨rfl, rfl, rfl, rfl, ?_, ?_, ?_⟩ <;> intro h <;>
    simp [mapGetQuotations, mapGetQuotationById, rawView, jsOrStr, jsOr, h]

/-- Witness for C5 (amended) at the all-absent stored document. -/
theorem read_paths_defaulting_witness :
    emptyStoredQuotation.status = none
    ∧ (mapGetQuotations "t0" "q1" emptyStoredQuotation).status = some "draft"
    ∧ (mapGetQuotations "t0" "q1" emptyStoredQuotation).workingHours = none
    ∧ (mapGetQuotationById "t0" "q1" emptyStoredQuotation).workingHours = some 8 :=
  ⟨rfl, ((read_paths_defaulting "t0" "q1" emptyStoredQuotation).2.2.2.2.1 rfl).1,
    ((read_paths_defaulting "t0" "q1" emptyStoredQuotation).2.2.2.2.2.1 rfl).1,
    ((read_paths_defaulting "t0" "q1" emptyStoredQuotation).2.2.2.2.2.1 rfl).2⟩

/-- C6 counterexample: for a stored document with exactly one selected
machine named `"Crane A"`, the list accessor (`getQuotations`) shows
`"1 machines selected"` instead of the machine's own name (which
`getQuotationById` shows) — the claimed naming rule does not hold on
every read path. -/
theorem equipment_name_cex :
    oneMachineDoc.selectedMachines = some [craneA]
    ∧ craneA.name = "Crane A"
    ∧ (mapGetQuotations "t0" "q1" oneMachineDoc).equipmentName = some "1 machines selected"
    ∧ (mapGetQuotationById "t0" "q1" oneMachineDoc).equipmentName = some "Crane A"
    ∧ some "1 machines selected" ≠ (some "Crane A" : Option String) :=
  ⟨rfl, rfl, rfl, rfl, by decide⟩

/-- C6 (amended): `getQuotationById` follows the claimed naming rule
(more than one machine → `"<n> machines selected"`, exactly one → that
machine's name, else the legacy name or `"Unknown Equipment"`), but
`getQuotations` shows `"<n> machines selected"` for any non-empty
machine list, including a single machine, and the for-lead/for-customer
accessors compute no display name at all (raw pass-through). -/
theorem equipment_display_name (now docId : String) (data : StoredQuotation) :
    (∀ ms, data.selectedMachines = some ms → 1 < ms.length →
      (mapGetQuotationById now docId data).equipmentName =
          some (toString ms.length ++ " machines selected")
      ∧ (mapGetQuotations now docId data).equipmentName =
          some (toString ms.length ++ " machines selected"))
    ∧ (∀ m, data.selectedMachines = some [m] →
      (mapGetQuotationById now docId data).equipmentName = some m.name
      ∧ (mapGetQuotations now docId data).equipmentName = some "1 machines selected")
    ∧ ((data.selectedMachines = none ∨ data.selectedMachines = some []) →
      (mapGetQuotationById now docId data).equipmentName =
          some (jsOrStr (data.selectedEquipment.bind fun e => e.name) "Unknown Equipment")
      ∧ (mapGetQuotations now docId data).equipmentName =
          some (jsOrStr (data.selectedEquipment.bind fun e => e.name) "Unknown Equipment"))
    ∧ (mapGetQuotationsForLead docId data).selectedEquipment = data.selectedEquipment := by
  refine ⟨?_, ?_, ?_, rfl⟩
  · intro ms hm h
    have h0 : 0 < ms.length := lt_trans (by norm_num) h
    constructor
    · simp [mapGetQuotationById, QuotationView.equipmentName, equipmentNameById, hm, h]
    · simp [mapGetQuotations, rawView, QuotationView.equipmentName, hm, h0]
  · intro m hm
    constructor
    · simp [mapGetQuotationById, QuotationView.equipmentName, equipmentNameById, hm]
    · simp [mapGetQuotations, rawView, QuotationView.equipmentName, hm]
      rfl
  · intro h
    rcases h with h | h <;>
      constructor <;>
        simp [mapGetQuotationById, mapGetQuotations, rawView, QuotationView.equipmentName,
          equipmentNameById, h]

/-- Witness for C6 (amended) at one- and two-machine documents. -/
theorem equipment_display_name_witness :
    (mapGetQuotationById "t0" "q1" twoMachineDoc).equipmentName = some "2 machines selected"
    ∧ (mapGetQuotations "t0" "q1" twoMachineDoc).equipmentName = some "2 machines selected"
    ∧ (mapGetQuotationById "t0" "q2" oneMachineDoc).equipmentName = some "Crane A" := by
  refine ⟨?_, ?_, ?_⟩
  · exact (((equipment_display_name "t0" "q1" twoMachineDoc).1 [craneA, craneB] rfl
      (by norm_num)).1).trans rfl
  · exact (((equipment_display_name "t0" "q1" twoMachineDoc).1 [craneA, craneB] rfl
      (by norm_num)).2).trans rfl
  · exact ((equipment_display_name "t0" "q2" oneMachineDoc).2.1 craneA rfl).1

/-- C9 counterexample: a quotation submission with all three required
fields present but `totalPrice = 0` is rejected with a 400 naming
`totalPrice` and nothing is written — presence of every required field
does not guarantee acceptance, because the check is JS truthiness, not
presence. -/
theorem submission_presence_cex :
    qSubZeroPrice.leadId ≠ none
    ∧ qSubZeroPrice.equipmentDetails ≠ none
    ∧ qSubZeroPrice.totalPrice = some (JsVal.num 0)
    ∧ handleQuotationSubmission (JsVal.date "t0") qSubZeroPrice =
        SubmissionResult.clientError 400 "Missing required field: totalPrice" :=
  ⟨by simp [qSubZeroPrice], by simp [qSubZeroPrice], rfl, rfl⟩

/-- C9 (amended): on both forwarding endpoints, if any required field is
missing or present with a falsy value (leads: `customerName`,
`equipmentNeeded`, `contactInfo`; quotations: `leadId`,
`equipmentDetails`, `totalPrice`), the handler returns a 400 naming the
first such field in that fixed order and nothing is written; if all
required fields are present with truthy values, the record is written
with its optional fields defaulted (quotations: `createdAt` to the
current time, `status` to `"draft"`; leads: `timestamp` to the current
time, `status` to `"new"`, `source` to `"AI Assistant"`). -/
theorem submission_validation (now : JsVal) (qb : QuotationSubmission) (lb : LeadSubmission) :
    (∀ f, quotationRequiredFields.find? (fun g => !(fieldTruthy (qb.field g))) = some f →
      handleQuotationSubmission now qb =
        SubmissionResult.clientError 400 ("Missing required field: " ++ f))
    ∧ ((∀ f, f ∈ quotationRequiredFields → fieldTruthy (qb.field f) = true) →
      handleQuotationSubmission now qb = SubmissionResult.created
        { qb with
          createdAt := if fieldTruthy qb.createdAt then qb.createdAt else some now
          status := if fieldTruthy qb.status then qb.status else some (JsVal.str "draft") })
    ∧ (∀ f, leadRequiredFields.find? (fun g => !(fieldTruthy (lb.field g))) = some f →
      handleLeadSubmission now lb =
        SubmissionResult.clientError 400 ("Missing required field: " ++ f))
    ∧ ((∀ f, f ∈ leadRequiredFields → fieldTruthy (lb.field f) = true) →
      handleLeadSubmission now lb = SubmissionResult.created
        { lb with
          timestamp := if fieldTruthy lb.timestamp then lb.timestamp else some now
          status := if fieldTruthy lb.status then lb.status else some (JsVal.str "new")
          source := if fieldTruthy lb.source then lb.source else some (JsVal.str "AI Assistant") }) := by
  refine ⟨?_, ?_, ?_, ?_⟩
  · intro f hf
    simp [handleQuotationSubmission, hf]
  · intro hall
    have h1 : quotationRequiredFields.find? (fun g => !(fieldTruthy (qb.field g))) = none := by
      rw [List.find?_eq_none]
      intro f hf
      simp [hall f hf]
    simp only [handleQuotationSubmission, h1]
    by_cases hc : fieldTruthy qb.createdAt <;> by_cases hs : fieldTruthy qb.status <;>
      simp [hc, hs]
  · intro f hf
    simp [handleLeadSubmission, hf]
  · intro hall
    have h1 : leadRequiredFields.find? (fun g => !(fieldTruthy (lb.field g))) = none := by
      rw [List.find?_eq_none]
      intro f hf
      simp [hall f hf]
    simp only [handleLeadSubmission, h1]
    by_cases ht : fieldTruthy lb.timestamp <;> by_cases hs : fieldTruthy lb.status <;>
      by_cases hsrc : fieldTruthy lb.source <;>
        simp [ht, hs, hsrc]

/-- Witness for C9 (amended): a lead and a quotation with truthy
required fields are both written with their optional fields defaulted. -/
theorem submission_validation_witness :
    handleQuotationSubmission (JsVal.date "t0") qSubOk = SubmissionResult.created
      { qSubOk with
        createdAt := some (JsVal.date "t0")
        status := some (JsVal.str "draft") }
    ∧ handleLeadSubmission (JsVal.date "t0") lSubOk = SubmissionResult.created
      { lSubOk with
        timestamp := some (JsVal.date "t0")
        status := some (JsVal.str "new")
        source := some (JsVal.str "AI Assistant") } := by
  constructor
  · exact ((submission_validation (JsVal.date "t0") qSubOk lSubOk).2.1 (by decide)).trans rfl
  · exact ((submission_validation (JsVal.date "t0") qSubOk lSubOk).2.2.2 (by decide)).trans rfl

end ASPCranes
